import Mathlib

/-!
Verification of the changelens windowing, rollback-detection and
statistical-analysis core against its specification.

The Python sources are shallowly embedded:
* `parse_k6_json` (src/scripts/parse_k6.py) — the windowed metrics
  aggregator.  Raw k6 data lines are modelled by `K6Point`; an ISO
  timestamp that is missing or unparsable is modelled by `time = none`
  (the embedding works with the parsed timestamp, in seconds, as a
  rational number).  Python `int()` truncation toward zero is `truncQ`,
  Python `sorted` on rationals is `List.insertionSort (· ≤ ·)`,
  and the `defaultdict` of window buckets is an association list
  updated by `updateAssoc`.
* `extract_rollback_events` (same file) — the offline rollback replay
  over the rows of the windowed-metrics CSV.
* `check_rollback_conditions` (src/scripts/rollback_detector.py) — the
  live per-poll rollback check; its human-readable reason strings are
  abstracted into the inductive `LiveReason`.
* `calculate_baseline`, `calculate_recovery_time`,
  `calculate_impact_scope` (src/scripts/derive_metrics.py).
* `cliffs_delta`, `interpret_effect_size` and the per-metric effect
  value of `compare_scenarios` (src/scripts/statistical_analysis.py).

All real arithmetic of the source is carried out in `ℚ`.
-/

/-- Python `int(q)`: truncation toward zero. -/
def truncQ (q : ℚ) : ℤ :=
  if q < 0 then -⌊-q⌋ else ⌊q⌋

/-- One decoded line of k6 JSON output.  `isPoint` is `type == "Point"`,
`hasData` is the truthiness of the `data` object, `time` is the parsed
timestamp in seconds (`none` when the `time` string is missing or does
not parse), `value` is `data.value` (default 0), `status` and
`expectedResponse` are the `status` / `expected_response` tags (defaults
`""` and `"true"`). -/
structure K6Point where
  isPoint : Bool
  metric : String
  hasData : Bool
  time : Option ℚ
  value : ℚ
  status : String
  expectedResponse : String
deriving DecidableEq, Repr

/-- Accumulator bucket of `parse_k6_json`'s `windows` defaultdict. -/
structure Bucket where
  latencies : List ℚ
  errors : ℕ
  total : ℕ
  start_time : Option ℚ
deriving DecidableEq, Repr

def emptyBucket : Bucket := ⟨[], 0, 0, none⟩

/-- State threaded through the point-processing loop of
`parse_k6_json`: `test_start_time` plus the bucket map. -/
structure AggState where
  test_start : Option ℚ
  windows : List (ℤ × Bucket)
deriving DecidableEq, Repr

/-- `windows[window_key]` update with defaultdict semantics: apply `f`
to the existing bucket, or to a fresh empty bucket when the key is new
(the new key is appended). -/
def updateAssoc : List (ℤ × Bucket) → ℤ → (Bucket → Bucket) → List (ℤ × Bucket)
  | [], k, f => [(k, f emptyBucket)]
  | e :: rest, k, f =>
      if e.1 = k then (k, f e.2) :: rest else e :: updateAssoc rest k f

/-- The `http_req_duration` branch body: record `start_time` on the
first sample, append the latency, bump the total. -/
def addLatency (elapsed v : ℚ) (b : Bucket) : Bucket :=
  { b with start_time := some (b.start_time.getD elapsed),
           latencies := b.latencies ++ [v],
           total := b.total + 1 }

/-- The `http_reqs` error branch body. -/
def addError (b : Bucket) : Bucket :=
  { b with errors := b.errors + 1 }

/-- One iteration of the point-processing loop of `parse_k6_json`
(src/scripts/parse_k6.py, lines 46-105). -/
def aggStep (w : ℚ) (st : AggState) (p : K6Point) : AggState :=
  if p.isPoint = false then st else
  if p.hasData = false then st else
  match p.time with
  | none => st
  | some t =>
    let ts := st.test_start.getD t
    let st1 : AggState := { st with test_start := some ts }
    let elapsed := t - ts
    if elapsed < 60 then st1 else
    let key := truncQ (elapsed / w)
    if p.metric = "http_req_duration" then
      if 0 < p.value then
        { st1 with windows := updateAssoc st1.windows key (addLatency elapsed p.value) }
      else st1
    else if p.metric = "http_reqs" then
      if p.status ≠ "" ∧ p.status ≠ "200" then
        { st1 with windows := updateAssoc st1.windows key addError }
      else if p.expectedResponse = "false" then
        { st1 with windows := updateAssoc st1.windows key addError }
      else st1
    else st1

/-- One row of the windowed-metrics CSV (a `result` dict of
`parse_k6_json`). -/
structure Window where
  window_start : ℚ
  window_end : ℚ
  p50_ms : ℚ
  p95_ms : ℚ
  p99_ms : ℚ
  error_count : ℕ
  total_requests : ℕ
  error_rate : ℚ
deriving DecidableEq, Repr

/-- Nearest-rank percentile index `max(0, min(n - 1, int(n * p)))`. -/
def pctIdx (n : ℕ) (p : ℚ) : ℕ :=
  (max 0 (min ((n : ℤ) - 1) (truncQ ((n : ℚ) * p)))).toNat

/-- Build the emitted `result` row for bucket `b` at window key `k`. -/
def mkWindow (w : ℚ) (k : ℤ) (b : Bucket) : Window :=
  let lat := List.insertionSort (· ≤ ·) b.latencies
  let n := lat.length
  let ws := b.start_time.getD ((k : ℚ) * w)
  { window_start := ws,
    window_end := ws + w,
    p50_ms := lat.getD (pctIdx n (1/2)) 0,
    p95_ms := lat.getD (pctIdx n (95/100)) 0,
    p99_ms := lat.getD (pctIdx n (99/100)) 0,
    error_count := b.errors,
    total_requests := b.total,
    error_rate := if 0 < b.total then (b.errors : ℚ) / (b.total : ℚ) else 0 }

/-- Python `windows[key]` read access on the association list. -/
def lookupKey (k : ℤ) (l : List (ℤ × Bucket)) : Option Bucket :=
  (l.find? (fun e => decide (e.1 = k))).map Prod.snd

/-- The emission loop of `parse_k6_json` (lines 107-138): iterate the
bucket keys in sorted order, drop buckets with no latency samples,
emit a `Window` row for the rest. -/
def emitWindows (w : ℚ) (assoc : List (ℤ × Bucket)) : List Window :=
  (List.insertionSort (· ≤ ·) (assoc.map Prod.fst)).filterMap (fun k =>
    match lookupKey k assoc with
    | none => none
    | some b =>
      if b.latencies = [] then none
      else if (List.insertionSort (· ≤ ·) b.latencies).length = 0 then none
      else some (mkWindow w k b))

/-- `parse_k6_json` (src/scripts/parse_k6.py): fold the point loop over
the decoded lines, then emit the windowed rows. -/
def parse_k6_json (pts : List K6Point) (w : ℚ) : List Window :=
  emitWindows w ((pts.foldl (aggStep w) ⟨none, []⟩).windows)

/-- Helper to build an `http_req_duration` point. -/
def mkDur (t v : ℚ) : K6Point :=
  ⟨true, "http_req_duration", true, some t, v, "", "true"⟩

/-- Helper to build an `http_reqs` point. -/
def mkReq (t : ℚ) (status expected : String) : K6Point :=
  ⟨true, "http_reqs", true, some t, 0, status, expected⟩

/-- The rollback events record of `extract_rollback_events`
(src/scripts/parse_k6.py, lines 163-170). -/
structure RollbackEvents where
  rollback_triggered : Bool
  rollback_time : Option ℚ
  trigger_reason : Option String
  consecutive_bad_windows : ℕ
  deployment_start : ℚ
  rollout_stages : List (ℚ × ℚ)
deriving DecidableEq, Repr

/-- A window row is bad for the offline replay:
`p99 > 500 or error_rate > 0.05`. -/
def badRow (m : Window) : Prop :=
  m.p99_ms > 500 ∨ m.error_rate > 5/100

instance (m : Window) : Decidable (badRow m) :=
  inferInstanceAs (Decidable (_ ∨ _))

/-- The row scan of `extract_rollback_events` (src/scripts/parse_k6.py,
lines 192-213): skip rows before `deployment_start = 120`, count
consecutive bad rows, and on the second consecutive bad row record the
trigger into the events record and stop. -/
def extractLoop : List Window → ℕ → RollbackEvents → RollbackEvents
  | [], _, ev => ev
  | m :: rest, cb, ev =>
      if m.window_start < 120 then extractLoop rest cb ev
      else if badRow m then
        if cb + 1 ≥ 2 then
          { ev with rollback_triggered := true,
                    rollback_time := some m.window_start,
                    trigger_reason :=
                      some (if m.p99_ms > 500 then "p99_threshold"
                            else "error_rate_threshold"),
                    consecutive_bad_windows := cb + 1 }
        else extractLoop rest (cb + 1) ev
      else extractLoop rest 0 ev

/-- Rollout stages fixed per scenario by `extract_rollback_events`. -/
def scenarioStages (scenario : String) : List (ℚ × ℚ) :=
  if scenario = "canary" then [(120, 5/100), (180, 25/100), (240, 1)]
  else [(120, 1)]

/-- The `events` dict as initialised by `extract_rollback_events`
before the row scan. -/
def baseEvents (scenario : String) : RollbackEvents :=
  { rollback_triggered := false,
    rollback_time := none,
    trigger_reason := none,
    consecutive_bad_windows := 0,
    deployment_start := 120,
    rollout_stages := scenarioStages scenario }

/-- `extract_rollback_events` (src/scripts/parse_k6.py): the offline
rollback replay over the windowed-metrics CSV rows. -/
def extract_rollback_events (rows : List Window) (scenario : String) : RollbackEvents :=
  extractLoop rows 0 (baseEvents scenario)

/-- Reason component of the live check's return value
(src/scripts/rollback_detector.py, `check_rollback_conditions`); the
formatted message strings are abstracted into tags. -/
inductive LiveReason
  | baselineNotSet
  | p99Exceeded
  | errorRateExceeded
  | metricsNormal
deriving DecidableEq, Repr

/-- `RollbackDetector.check_rollback_conditions`
(src/scripts/rollback_detector.py, lines 77-105): the live per-poll
rollback decision against the module-level baseline.  `bp`/`ber` are
the `baseline_p99` / `baseline_error_rate` globals; the sampled
metrics carry `p99_latency_ms` and `error_rate` (in percent). -/
def check_rollback_conditions (bp ber : Option ℚ) (p99 errorRate : ℚ) :
    Bool × LiveReason :=
  match bp, ber with
  | none, _ => (false, LiveReason.baselineNotSet)
  | _, none => (false, LiveReason.baselineNotSet)
  | some b, some _ =>
      if p99 > b * (3/2) then (true, LiveReason.p99Exceeded)
      else if errorRate > 5 then (true, LiveReason.errorRateExceeded)
      else (false, LiveReason.metricsNormal)

/-- The monitoring loop of `RollbackDetector.monitor_and_detect`
restricted to its decision behaviour: presented with a sequence of
metric samples, it stops at the first sample whose check returns true
(the rollback action is taken there); later samples are not evaluated.
Returns the 0-based index of the triggering sample. -/
def liveTriggerIndex (bp ber : Option ℚ) : List (ℚ × ℚ) → Option ℕ
  | [] => none
  | s :: rest =>
      if (check_rollback_conditions bp ber s.1 s.2).1 then some 0
      else (liveTriggerIndex bp ber rest).map (· + 1)

/-- Baseline record of `calculate_baseline`
(src/scripts/derive_metrics.py). -/
structure Baseline where
  p99_ms : ℚ
  error_rate : ℚ
deriving DecidableEq, Repr

/-- `calculate_baseline` (src/scripts/derive_metrics.py, lines 47-73):
average `p99` and `error_rate` over windows starting before
`baseline_window`; fall back to the first 6 windows, then to fixed
constants. -/
def calculate_baseline (metrics : List Window) (baseline_window : ℚ) : Baseline :=
  let bm := metrics.filter (fun m => m.window_start < baseline_window)
  let bm := if bm = [] then metrics.take 6 else bm
  if bm = [] then ⟨100, 1/100⟩
  else
    ⟨(bm.map Window.p99_ms).sum / bm.length,
     (bm.map Window.error_rate).sum / bm.length⟩

/-- The recovery predicate scanned by `calculate_recovery_time`:
window starts at or after the rollback and both metrics are inside the
recovery margins. -/
def recoveredAt (t th1 th2 : ℚ) (m : Window) : Bool :=
  decide (m.window_start ≥ t) && decide (m.p99_ms < th1) && decide (m.error_rate < th2)

/-- `calculate_recovery_time` (src/scripts/derive_metrics.py, lines
121-161). -/
def calculate_recovery_time (metrics : List Window) (ev : RollbackEvents)
    (baseline_window : ℚ) : Option ℚ :=
  if ev.rollback_triggered = false then none else
  match ev.rollback_time with
  | none => none
  | some t =>
    let b := calculate_baseline metrics baseline_window
    let th1 := b.p99_ms * (11/10)
    let th2 := b.error_rate + 1/100
    match metrics.find? (recoveredAt t th1 th2) with
    | some m => some (max 0 (m.window_end - t))
    | none =>
      match metrics.getLast? with
      | some last => some (max 0 (last.window_end - t))
      | none => none

/-- Impact record of `calculate_impact_scope`
(src/scripts/derive_metrics.py). -/
structure ImpactScope where
  traffic_to_v2_pct : ℚ
  affected_users_pct : ℚ
  total_requests_before_rollback : ℕ
  error_rate_during_regression : ℚ
deriving DecidableEq, Repr

def zeroImpact : ImpactScope := ⟨0, 0, 0, 0⟩

/-- `calculate_impact_scope` (src/scripts/derive_metrics.py, lines
164-242). -/
def calculate_impact_scope (metrics : List Window) (ev : RollbackEvents)
    (scenario : String) : ImpactScope :=
  if ev.rollback_triggered = false then zeroImpact else
  let ds := ev.deployment_start
  let rt : Option ℚ :=
    match ev.rollback_time with
    | some t => some t
    | none =>
        (metrics.find? (fun m => decide (m.window_start ≥ ds) && decide (badRow m))).map
          Window.window_end
  match rt with
  | none => zeroImpact
  | some t =>
    let traffic : ℚ :=
      if scenario = "canary" then
        let total := t - ds
        if total ≤ 0 then 0
        else if total ≤ 60 then 5/100
        else if total ≤ 120 then (60 * (5/100) + (total - 60) * (25/100)) / total
        else (60 * (5/100) + 60 * (25/100) + (total - 120) * 1) / total
      else if t > ds then 1 else 0
    let reg := metrics.filter (fun m => decide (ds ≤ m.window_start) && decide (m.window_start < t))
    let reg := if reg = [] then (metrics.filter (fun m => m.window_start ≥ ds)).take 3 else reg
    let totalReq := (reg.map Window.total_requests).sum
    let totalErr := (reg.map Window.error_count).sum
    let er := if 0 < totalReq then (totalErr : ℚ) / (totalReq : ℚ) else 0
    { traffic_to_v2_pct := traffic * 100,
      affected_users_pct := traffic * er * 100,
      total_requests_before_rollback := totalReq,
      error_rate_during_regression := er }

/-- Pairwise dominance count of `cliffs_delta`
(src/scripts/statistical_analysis.py, lines 84-93). -/
def dominances (a b : List ℚ) : ℤ :=
  (a.map (fun av =>
    (b.map (fun bv => if av > bv then (1 : ℤ) else if av < bv then -1 else 0)).sum)).sum

/-- `cliffs_delta` (src/scripts/statistical_analysis.py, lines 58-98). -/
def cliffs_delta (a b : List ℚ) : ℚ :=
  if a.length = 0 ∨ b.length = 0 then 0
  else (dominances a b : ℚ) / ((a.length : ℚ) * (b.length : ℚ))

/-- `interpret_effect_size` (src/scripts/statistical_analysis.py,
lines 261-271). -/
def interpret_effect_size (effect : ℚ) : String :=
  if |effect| < 2/10 then "negligible"
  else if |effect| < 5/10 then "small"
  else if |effect| < 8/10 then "medium"
  else "large"

/-- Per-metric mean/std entry of an aggregated results dictionary as
consumed by `compare_scenarios`. -/
structure MetricStats where
  mean : ℚ
  std : ℚ
deriving DecidableEq, Repr

/-- The square of the per-metric effect value of `compare_scenarios`
(src/scripts/statistical_analysis.py, lines 239-256).  The source
computes `cohens_d = (bluegreen_mean - canary_mean) / pooled_std` with
`pooled_std = sqrt((canary_std^2 + bluegreen_std^2) / 2)`; to stay in
exact rational arithmetic the embedding carries the squared magnitude
`cohens_d^2 = (bluegreen_mean - canary_mean)^2 / pooled_std^2`. -/
def cohensDSq (canary bluegreen : MetricStats) : ℚ :=
  (bluegreen.mean - canary.mean) ^ 2 / ((canary.std ^ 2 + bluegreen.std ^ 2) / 2)

/-- Sample mean (numpy `mean`). -/
def sampleMean (l : List ℚ) : ℚ := l.sum / l.length

/-- Sample variance with `n - 1` denominator (numpy `std(ddof=1)`
squared). -/
def sampleVar (l : List ℚ) : ℚ :=
  (l.map (fun x => (x - sampleMean l) ^ 2)).sum / (l.length - 1 : ℚ)

/-- Tagged-variant detector state: `MONITORING` with its
consecutive-bad counter, or terminal `TRIGGERED` with trigger time,
reason and recorded counter. -/
inductive DetState
  | monitoring : ℕ → DetState
  | triggered : ℚ → String → ℕ → DetState
deriving DecidableEq, Repr

/-- Pure hysteresis reducer over one window row, mirroring the offline
replay: rows before `deployment_start = 120` leave the state alone, a
bad row bumps the counter (transitioning to `TRIGGERED` at 2), a good
row resets it; `TRIGGERED` is absorbing. -/
def detStep (st : DetState) (m : Window) : DetState :=
  match st with
  | DetState.triggered t r c => DetState.triggered t r c
  | DetState.monitoring cb =>
      if m.window_start < 120 then DetState.monitoring cb
      else if badRow m then
        if cb + 1 ≥ 2 then
          DetState.triggered m.window_start
            (if m.p99_ms > 500 then "p99_threshold" else "error_rate_threshold")
            (cb + 1)
        else DetState.monitoring (cb + 1)
      else DetState.monitoring 0

/-- Offline replay as a pure fold of `detStep`. -/
def detRun (rows : List Window) : DetState :=
  rows.foldl detStep (DetState.monitoring 0)

/-- Read a detector state back into the events record. -/
def eventsOfState (scenario : String) : DetState → RollbackEvents
  | DetState.monitoring _ => baseEvents scenario
  | DetState.triggered t r c =>
      { baseEvents scenario with
          rollback_triggered := true,
          rollback_time := some t,
          trigger_reason := some r,
          consecutive_bad_windows := c }

theorem foldl_detStep_triggered (rows : List Window) (t : ℚ) (r : String) (c : ℕ) :
    rows.foldl detStep (DetState.triggered t r c) = DetState.triggered t r c := by
  induction rows with
  | nil => rfl
  | cons m rest ih => simpa [detStep] using ih

theorem extractLoop_eq_fold (rows : List Window) (cb : ℕ) (sc : String) :
    extractLoop rows cb (baseEvents sc) =
      eventsOfState sc (rows.foldl detStep (DetState.monitoring cb)) := by
  induction rows generalizing cb with
  | nil => rfl
  | cons m rest ih =>
      by_cases hskip : m.window_start < 120
      · simp [extractLoop, detStep, hskip, ih]
      · by_cases hbad : badRow m
        · by_cases h2 : cb + 1 ≥ 2
          · simp [extractLoop, detStep, hskip, hbad, h2,
                  foldl_detStep_triggered, eventsOfState, baseEvents]
          · simp [extractLoop, detStep, hskip, hbad, h2, ih]
        · simp [extractLoop, detStep, hskip, hbad, ih]

theorem extractLoop_time_of_bad (rows : List Window) (cb : ℕ) (ev : RollbackEvents)
    (t : ℚ) (hev : ev.rollback_time = none)
    (h : (extractLoop rows cb ev).rollback_time = some t) :
    ∃ m ∈ rows, m.window_start = t ∧ 120 ≤ m.window_start ∧ badRow m := by
  induction rows generalizing cb with
  | nil => simp [extractLoop, hev] at h
  | cons m rest ih =>
      by_cases hskip : m.window_start < 120
      · rcases ih cb (by simpa [extractLoop, hskip] using h) with ⟨m0, hm0, hrest⟩
        exact ⟨m0, List.mem_cons_of_mem _ hm0, hrest⟩
      · by_cases hbad : badRow m
        · by_cases h2 : cb + 1 ≥ 2
          · refine ⟨m, List.mem_cons_self _ _, ?_, le_of_not_lt hskip, hbad⟩
            simpa [extractLoop, hskip, hbad, h2] using h
          · rcases ih (cb + 1) (by simpa [extractLoop, hskip, hbad, h2] using h) with
              ⟨m0, hm0, hrest⟩
            exact ⟨m0, List.mem_cons_of_mem _ hm0, hrest⟩
        · rcases ih 0 (by simpa [extractLoop, hskip, hbad] using h) with ⟨m0, hm0, hrest⟩
          exact ⟨m0, List.mem_cons_of_mem _ hm0, hrest⟩

/-- The worked example of the specification: thresholds p99>500,
error_rate>0.05, consecutive=2, deployment_start=120, windows
(start, end, p99, error_rate) = (110,120,80,0.0), (120,130,600,0.0),
(130,140,50,0.0), (140,150,700,0.08), (150,160,720,0.09). -/
def exampleRows : List Window :=
  [⟨110, 120, 0, 0, 80, 0, 10, 0⟩,
   ⟨120, 130, 0, 0, 600, 0, 10, 0⟩,
   ⟨130, 140, 0, 0, 50, 0, 10, 0⟩,
   ⟨140, 150, 0, 0, 700, 0, 10, 8/100⟩,
   ⟨150, 160, 0, 0, 720, 0, 10, 9/100⟩]

/-- C1, counterexample: on the worked example the offline replay
records `rollback_time = 150`, the START of the triggering window,
not its end 160 as the claim states. -/
theorem C1_trigger_time_counterexample :
    (extract_rollback_events exampleRows "bluegreen").rollback_time = some 150 ∧
      some (150 : ℚ) ≠ some (160 : ℚ) := by
  norm_num [extract_rollback_events, extractLoop, baseEvents, badRow, exampleRows,
    scenarioStages]

/-- C1 (amended): when the offline replay triggers, the recorded
trigger time equals the START of the triggering window; on the worked
example the detector reports triggered=true with trigger_time=150,
trigger_reason="p99_threshold" and consecutive_bad_windows=2.  In
general every recorded trigger time is the start of a bad window at or
after deployment_start. -/
theorem C1_trigger_time_amended :
    extract_rollback_events exampleRows "bluegreen" =
      { rollback_triggered := true,
        rollback_time := some 150,
        trigger_reason := some "p99_threshold",
        consecutive_bad_windows := 2,
        deployment_start := 120,
        rollout_stages := [(120, 1)] } ∧
    (∀ (rows : List Window) (sc : String) (t : ℚ),
       (extract_rollback_events rows sc).rollback_time = some t →
         ∃ m ∈ rows, m.window_start = t ∧ 120 ≤ m.window_start ∧ badRow m) := by
  constructor
  · norm_num [extract_rollback_events, extractLoop, baseEvents, badRow, exampleRows,
      scenarioStages]
    decide
  · intro rows sc t h
    exact extractLoop_time_of_bad rows 0 (baseEvents sc) t rfl h

/-- Closed witness for `C1_trigger_time_amended`. -/
theorem C1_trigger_time_amended_witness :
    ∃ m ∈ exampleRows, m.window_start = (150 : ℚ) ∧ 120 ≤ m.window_start ∧ badRow m :=
  C1_trigger_time_amended.2 exampleRows "bluegreen" 150
    (by norm_num [extract_rollback_events, extractLoop, baseEvents, badRow, exampleRows,
      scenarioStages])

/-- A single window series row whose p99 is above both detectors'
thresholds. -/
def singleBadWin : Window := ⟨130, 140, 0, 0, 600, 0, 10, 0⟩

/-- C2, counterexample: presented with the same one-window series (the
live check sees the window's p99 and error rate, with baseline
p99 = 100 and error-rate threshold in percent), the live detector
triggers at the very first window while the offline replay does not
trigger at all, so the two do not implement the same hysteresis logic
and do not produce identical output. -/
theorem C2_live_offline_counterexample :
    liveTriggerIndex (some 100) (some 0)
        [(singleBadWin.p99_ms, singleBadWin.error_rate * 100)] = some 0 ∧
      (extract_rollback_events [singleBadWin] "bluegreen").rollback_triggered = false := by
  norm_num [liveTriggerIndex, check_rollback_conditions, singleBadWin,
    extract_rollback_events, extractLoop, baseEvents, badRow, scenarioStages]

/-- C2 (amended): the offline replay is exactly the pure hysteresis
reducer `detStep` (bad iff p99 > 500 or error_rate > 0.05, counter
incremented on bad and reset on good, trigger at 2 consecutive bad
windows at or after deployment_start); the live detector, however,
carries no consecutive-bad counter: with a set baseline it triggers at
the first sample with p99 > baseline_p99 * 1.5 or error rate (percent)
> 5.  The two therefore need not produce identical output. -/
theorem C2_live_offline_amended :
    (∀ (rows : List Window) (sc : String),
       extract_rollback_events rows sc = eventsOfState sc (detRun rows)) ∧
    (∀ (bp ber : ℚ) (samples : List (ℚ × ℚ)),
       liveTriggerIndex (some bp) (some ber) samples =
         samples.findIdx?
           (fun s => decide (s.1 > bp * (3/2)) || decide (s.2 > 5))) := by
  constructor
  · intro rows sc
    exact extractLoop_eq_fold rows 0 sc
  · intro bp ber samples
    induction samples with
    | nil => rfl
    | cons s rest ih =>
        rw [List.findIdx?_cons, List.findIdx?_succ]
        by_cases h1 : s.1 > bp * (3/2)
        · simp [liveTriggerIndex, check_rollback_conditions, h1]
        · by_cases h2 : s.2 > 5
          · simp [liveTriggerIndex, check_rollback_conditions, h1, h2]
          · simp [liveTriggerIndex, check_rollback_conditions, h1, h2, ih]

/-- Closed witness for `C2_live_offline_amended`. -/
theorem C2_live_offline_amended_witness :
    extract_rollback_events exampleRows "canary" =
      eventsOfState "canary" (detRun exampleRows) :=
  C2_live_offline_amended.1 exampleRows "canary"

/-- `count(a > b)` over all pairs. -/
def countGT (a b : List ℚ) : ℕ :=
  (a.map (fun x => (b.filter (fun y => decide (x > y))).length)).sum

/-- `count(a < b)` over all pairs. -/
def countLT (a b : List ℚ) : ℕ :=
  (a.map (fun x => (b.filter (fun y => decide (x < y))).length)).sum

theorem inner_dominance_eq_counts (x : ℚ) (b : List ℚ) :
    (b.map (fun y => if x > y then (1 : ℤ) else if x < y then -1 else 0)).sum =
      ((b.filter (fun y => decide (x > y))).length : ℤ) -
        ((b.filter (fun y => decide (x < y))).length : ℤ) := by
  induction b with
  | nil => simp
  | cons y ys ih =>
      by_cases h1 : x > y
      · have h2 : ¬x < y := lt_asymm h1
        simp [List.filter_cons, h1, h2, ih]
        ring
      · by_cases h2 : x < y
        · simp [List.filter_cons, h1, h2, ih]
          ring
        · simp [List.filter_cons, h1, h2, ih]

theorem dominances_eq_counts (a b : List ℚ) :
    dominances a b = (countGT a b : ℤ) - (countLT a b : ℤ) := by
  induction a with
  | nil => simp [dominances, countGT, countLT]
  | cons x xs ih =>
      simp only [dominances, countGT, countLT, List.map_cons, List.sum_cons] at ih ⊢
      rw [inner_dominance_eq_counts]
      push_cast
      push_cast at ih
      linarith

theorem countGT_le (a b : List ℚ) : countGT a b ≤ a.length * b.length := by
  induction a with
  | nil => simp [countGT]
  | cons x xs ih =>
      simp only [countGT, List.map_cons, List.sum_cons, List.length_cons] at ih ⊢
      have := List.length_filter_le (fun y => decide (x > y)) b
      calc (b.filter (fun y => decide (x > y))).length +
            (xs.map (fun x => (b.filter (fun y => decide (x > y))).length)).sum
          ≤ b.length + xs.length * b.length := by omega
        _ = (xs.length + 1) * b.length := by ring

theorem countLT_le (a b : List ℚ) : countLT a b ≤ a.length * b.length := by
  induction a with
  | nil => simp [countLT]
  | cons x xs ih =>
      simp only [countLT, List.map_cons, List.sum_cons, List.length_cons] at ih ⊢
      have := List.length_filter_le (fun y => decide (x < y)) b
      calc (b.filter (fun y => decide (x < y))).length +
            (xs.map (fun x => (b.filter (fun y => decide (x < y))).length)).sum
          ≤ b.length + xs.length * b.length := by omega
        _ = (xs.length + 1) * b.length := by ring

theorem cliffs_delta_range (a b : List ℚ) :
    -1 ≤ cliffs_delta a b ∧ cliffs_delta a b ≤ 1 := by
  unfold cliffs_delta
  by_cases h : a.length = 0 ∨ b.length = 0
  · rw [if_pos h]
    norm_num
  · rw [if_neg h]
    push_neg at h
    have hn : 0 < a.length := Nat.pos_of_ne_zero h.1
    have hm : 0 < b.length := Nat.pos_of_ne_zero h.2
    have hnm : (0 : ℚ) < (a.length : ℚ) * (b.length : ℚ) := by positivity
    have hgt := countGT_le a b
    have hlt := countLT_le a b
    have hd : ((dominances a b : ℤ) : ℚ) = (countGT a b : ℚ) - (countLT a b : ℚ) := by
      rw [dominances_eq_counts]; push_cast; ring
    have hub : ((dominances a b : ℤ) : ℚ) ≤ (a.length : ℚ) * (b.length : ℚ) := by
      rw [hd]
      have : (countGT a b : ℚ) ≤ (a.length : ℚ) * (b.length : ℚ) := by
        exact_mod_cast Nat.cast_le.mpr hgt
      have h0 : (0 : ℚ) ≤ (countLT a b : ℚ) := by positivity
      linarith
    have hlb : -((a.length : ℚ) * (b.length : ℚ)) ≤ ((dominances a b : ℤ) : ℚ) := by
      rw [hd]
      have : (countLT a b : ℚ) ≤ (a.length : ℚ) * (b.length : ℚ) := by
        exact_mod_cast Nat.cast_le.mpr hlt
      have h0 : (0 : ℚ) ≤ (countGT a b : ℚ) := by positivity
      linarith
    constructor
    · rw [le_div_iff₀ hnm]; linarith
    · rw [div_le_one hnm]; linarith

theorem sgn_pair_antisymm (x y : ℚ) :
    (if x > y then (1 : ℤ) else if x < y then -1 else 0) =
      -(if y > x then (1 : ℤ) else if y < x then -1 else 0) := by
  rcases lt_trichotomy x y with h | h | h
  · simp [h, lt_asymm h, not_lt_of_gt h]
  · simp [h, lt_irrefl]
  · simp [h, lt_asymm h, not_lt_of_gt h]

theorem sum_map_neg_eq (g : ℚ → ℤ) (b : List ℚ) :
    (b.map (fun y => -(g y))).sum = -((b.map g).sum) := by
  induction b with
  | nil => simp
  | cons y ys ih => simp [ih]; ring

theorem dominances_nil_right (b : List ℚ) : dominances b [] = 0 := by
  induction b with
  | nil => rfl
  | cons y ys ih => simp [dominances]

theorem dominances_cons_right (a : List ℚ) (y : ℚ) (ys : List ℚ) :
    dominances a (y :: ys) =
      (a.map (fun x => if x > y then (1 : ℤ) else if x < y then -1 else 0)).sum +
        dominances a ys := by
  induction a with
  | nil => simp [dominances]
  | cons x xs ih =>
      simp only [dominances, List.map_cons, List.sum_cons] at ih ⊢
      linarith

theorem dominances_antisymm (a b : List ℚ) : dominances a b = -(dominances b a) := by
  induction a with
  | nil => simp [dominances, dominances_nil_right]
  | cons x xs ih =>
      rw [dominances_cons_right b x xs]
      simp only [dominances, List.map_cons, List.sum_cons] at ih ⊢
      have hpt : (b.map (fun y => if x > y then (1 : ℤ) else if x < y then -1 else 0)).sum =
          -((b.map (fun y => if y > x then (1 : ℤ) else if y < x then -1 else 0)).sum) := by
        rw [List.map_congr_left (fun y (_ : y ∈ b) => sgn_pair_antisymm x y),
          sum_map_neg_eq]
      linarith

theorem dominances_perm_right (a : List ℚ) {b b2 : List ℚ} (h : b.Perm b2) :
    dominances a b = dominances a b2 := by
  unfold dominances
  exact congrArg List.sum (List.map_congr_left (fun x _ =>
    List.Perm.sum_eq (h.map (fun y => if x > y then (1 : ℤ) else if x < y then -1 else 0))))

theorem cliffs_delta_perm_zero {a b : List ℚ} (h : a.Perm b) : cliffs_delta a b = 0 := by
  have hd : dominances a b = 0 := by
    have h1 : dominances a b = dominances a a := dominances_perm_right a h.symm
    have h2 := dominances_antisymm a a
    omega
  unfold cliffs_delta
  by_cases hz : a.length = 0 ∨ b.length = 0
  · rw [if_pos hz]
  · rw [if_neg hz, hd]
    norm_num

/-- C4, counterexample: the interpretation bands of the code are
0.2 / 0.5 / 0.8, not 0.147 / 0.33 / 0.474 — at effect 0.45 the claim's
bands give "medium" but the code answers "small" — and the value
`compare_scenarios` interprets is not Cliff's Delta of the two per-run
collections: at the aggregate statistics of A = [1,2,3] and
B = [4,5,6] (means 2 and 5, sample stds 1 and 1) the code's effect
value is `(5 - 2) / sqrt((1 + 1) / 2) = 3` (squared: 9), while
Cliff's Delta of those collections is -1 (squared: 1). -/
theorem C4_effect_size_counterexample :
    ((33 / 100 ≤ (45 : ℚ) / 100 ∧ (45 : ℚ) / 100 < 474 / 1000) ∧
       interpret_effect_size (45 / 100) = "small" ∧ "small" ≠ "medium") ∧
    (sampleMean [1, 2, 3] = 2 ∧ sampleVar [1, 2, 3] = 1 ∧
       sampleMean [4, 5, 6] = 5 ∧ sampleVar [4, 5, 6] = 1 ∧
       cohensDSq ⟨2, 1⟩ ⟨5, 1⟩ = 9 ∧
       cliffs_delta [1, 2, 3] [4, 5, 6] ^ 2 = 1 ∧ (9 : ℚ) ≠ 1) := by
  refine ⟨⟨⟨by norm_num, by norm_num⟩, ?_, by decide⟩,
    by norm_num [sampleMean], by norm_num [sampleVar, sampleMean],
    by norm_num [sampleMean], by norm_num [sampleVar, sampleMean],
    by norm_num [cohensDSq], ?_, by norm_num⟩
  · have habs : |(45 : ℚ) / 100| = 45 / 100 := abs_of_pos (by norm_num)
    rw [interpret_effect_size, habs]
    norm_num
  · rw [cliffs_delta]
    norm_num [dominances]

/-- C4 (amended): the pairwise effect-size function `cliffs_delta`
computes `(count(a>b) − count(a<b)) / (|A| * |B|)` over all pairs,
lies in [−1, 1], equals −1 on A=[1,2,3] vs B=[4,5,6] and 0 on equal
multisets; `interpret_effect_size`, however, uses the bands
|d| < 0.2 negligible, < 0.5 small, < 0.8 medium, else large, and
`compare_scenarios` does not apply `cliffs_delta` to the per-run
collections but compares scenario means by a Cohen's-d-style value
(difference of means over pooled standard deviation), whose square
`cohensDSq` can exceed the square of any Cliff's Delta. -/
theorem C4_effect_size_amended :
    (∀ a b : List ℚ, a ≠ [] → b ≠ [] →
       cliffs_delta a b =
         ((countGT a b : ℚ) - (countLT a b : ℚ)) /
           ((a.length : ℚ) * (b.length : ℚ))) ∧
    (∀ a b : List ℚ, -1 ≤ cliffs_delta a b ∧ cliffs_delta a b ≤ 1) ∧
    cliffs_delta [1, 2, 3] [4, 5, 6] = -1 ∧
    (∀ a b : List ℚ, a.Perm b → cliffs_delta a b = 0) ∧
    (∀ x : ℚ,
       (interpret_effect_size x = "negligible" ↔ |x| < 2/10) ∧
       (interpret_effect_size x = "small" ↔ 2/10 ≤ |x| ∧ |x| < 5/10) ∧
       (interpret_effect_size x = "medium" ↔ 5/10 ≤ |x| ∧ |x| < 8/10) ∧
       (interpret_effect_size x = "large" ↔ 8/10 ≤ |x|)) ∧
    (cohensDSq ⟨2, 1⟩ ⟨5, 1⟩ = 9 ∧ ∀ a b : List ℚ, cliffs_delta a b ^ 2 ≤ 1) := by
  refine ⟨?_, ?_, ?_, ?_, ?_, by norm_num [cohensDSq], ?_⟩
  · intro a b ha hb
    rw [cliffs_delta, dominances_eq_counts]
    rw [if_neg]
    · push_cast
      ring
    · push_neg
      exact ⟨fun h => ha (List.length_eq_zero.mp h), fun h => hb (List.length_eq_zero.mp h)⟩
  · exact cliffs_delta_range
  · rw [cliffs_delta]
    norm_num [dominances]
  · exact fun a b h => cliffs_delta_perm_zero h
  · intro x
    rw [interpret_effect_size]
    by_cases h1 : |x| < 2/10
    · rw [if_pos h1]
      exact ⟨⟨fun _ => h1, fun _ => rfl⟩,
        ⟨fun h => absurd h (by decide), fun hc => absurd h1 (not_lt.mpr hc.1)⟩,
        ⟨fun h => absurd h (by decide),
         fun hc => absurd h1 (not_lt.mpr (le_trans (by norm_num) hc.1))⟩,
        ⟨fun h => absurd h (by decide),
         fun hc => absurd h1 (not_lt.mpr (le_trans (by norm_num) hc))⟩⟩
    · by_cases h2 : |x| < 5/10
      · rw [if_neg h1, if_pos h2]
        push_neg at h1
        exact ⟨⟨fun h => absurd h (by decide), fun hc => absurd hc (not_lt.mpr h1)⟩,
          ⟨fun _ => ⟨h1, h2⟩, fun _ => rfl⟩,
          ⟨fun h => absurd h (by decide), fun hc => absurd h2 (not_lt.mpr hc.1)⟩,
          ⟨fun h => absurd h (by decide),
           fun hc => absurd h2 (not_lt.mpr (le_trans (by norm_num) hc))⟩⟩
      · by_cases h3 : |x| < 8/10
        · rw [if_neg h1, if_neg h2, if_pos h3]
          push_neg at h1 h2
          exact ⟨⟨fun h => absurd h (by decide),
             fun hc => absurd hc (not_lt.mpr (le_trans (by norm_num) h2))⟩,
            ⟨fun h => absurd h (by decide), fun hc => absurd hc.2 (not_lt.mpr h2)⟩,
            ⟨fun _ => ⟨h2, h3⟩, fun _ => rfl⟩,
            ⟨fun h => absurd h (by decide), fun hc => absurd h3 (not_lt.mpr hc)⟩⟩
        · rw [if_neg h1, if_neg h2, if_neg h3]
          push_neg at h1 h2 h3
          exact ⟨⟨fun h => absurd h (by decide),
             fun hc => absurd hc (not_lt.mpr (le_trans (by norm_num) h3))⟩,
            ⟨fun h => absurd h (by decide),
             fun hc => absurd hc.2 (not_lt.mpr (le_trans (by norm_num) h3))⟩,
            ⟨fun h => absurd h (by decide), fun hc => absurd hc.2 (not_lt.mpr h3)⟩,
            ⟨fun _ => h3, fun _ => rfl⟩⟩
  · intro a b
    rcases cliffs_delta_range a b with ⟨hlo, hhi⟩
    nlinarith

/-- Closed witness for `C4_effect_size_amended`. -/
theorem C4_effect_size_amended_witness :
    cliffs_delta [1, 2] [3] =
      ((countGT [1, 2] [3] : ℚ) - (countLT [1, 2] [3] : ℚ)) /
        ((([1, 2] : List ℚ).length : ℚ) * ((([3] : List ℚ)).length : ℚ)) ∧
    cliffs_delta [1, 2] [2, 1] = 0 :=
  ⟨C4_effect_size_amended.1 [1, 2] [3] (by decide) (by decide),
   (C4_effect_size_amended.2.2.2.1) [1, 2] [2, 1] (by decide)⟩

/-- An events record of a run where no rollback was triggered. -/
def noTrigEvents : RollbackEvents := ⟨false, none, none, 0, 120, [(120, 1)]⟩

/-- A two-window series after deployment start carrying errors. -/
def c5rows : List Window :=
  [⟨120, 130, 0, 0, 100, 3, 10, 3/10⟩, ⟨130, 140, 0, 0, 100, 5, 10, 5/10⟩]

/-- C5, counterexample: for a run in which no rollback was triggered,
`calculate_impact_scope` reports all zeros, even though the series has
errors and a full blue-green cutover, for which the claim's
exposure-based traffic figure over `[deployment_start, series_end)`
would be 1.0 (reported as 100), not 0. -/
theorem C5_impact_scope_counterexample :
    noTrigEvents.rollback_triggered = false ∧
    calculate_impact_scope c5rows noTrigEvents "bluegreen" = zeroImpact ∧
    (c5rows.map Window.error_count).sum = 8 ∧
    zeroImpact.traffic_to_v2_pct = 0 ∧ (0 : ℚ) ≠ 100 := by
  refine ⟨rfl, rfl, by decide, rfl, by norm_num⟩

/-- C5 (amended): exposure-based impact figures are computed only when
a rollback was triggered; a run with no rollback reports zeros for all
impact-scope figures.  When a rollback was triggered at time `t`, for
the blue-green scenario `traffic_to_v2_pct` is 100 exactly when
`t` is after `deployment_start` (the instantaneous 100% cutover), and
`error_rate_during_regression` is the ratio of summed error counts to
summed requests over the windows starting in
`[deployment_start, t)`. -/
theorem C5_impact_scope_amended :
    (∀ (ms : List Window) (ev : RollbackEvents) (sc : String),
       ev.rollback_triggered = false → calculate_impact_scope ms ev sc = zeroImpact) ∧
    (∀ (ms : List Window) (ev : RollbackEvents) (t : ℚ),
       ev.rollback_triggered = true → ev.rollback_time = some t →
       ev.deployment_start < t →
       (calculate_impact_scope ms ev "bluegreen").traffic_to_v2_pct = 100) ∧
    (∀ (ms : List Window) (ev : RollbackEvents) (t : ℚ),
       ev.rollback_triggered = true → ev.rollback_time = some t →
       ∀ reg : List Window,
         reg = ms.filter (fun m => decide (ev.deployment_start ≤ m.window_start) &&
                 decide (m.window_start < t)) →
         reg ≠ [] → 0 < (reg.map Window.total_requests).sum →
         (calculate_impact_scope ms ev "bluegreen").error_rate_during_regression =
           ((reg.map Window.error_count).sum : ℚ) /
             ((reg.map Window.total_requests).sum : ℚ)) := by
  refine ⟨?_, ?_, ?_⟩
  · intro ms ev sc h
    rw [calculate_impact_scope, if_pos h]
  · intro ms ev t htrig htime hds
    rw [calculate_impact_scope, if_neg (by simp [htrig]), htime]
    simp only [String.reduceEq, if_false, if_pos hds, gt_iff_lt]
    norm_num
  · intro ms ev t htrig htime reg hreg hne hpos
    rw [calculate_impact_scope, if_neg (by simp [htrig]), htime]
    simp only [String.reduceEq, if_false]
    rw [← hreg]
    simp only [if_neg hne, if_pos hpos]

/-- Closed witness for `C5_impact_scope_amended`. -/
theorem C5_impact_scope_amended_witness :
    calculate_impact_scope c5rows noTrigEvents "canary" = zeroImpact :=
  C5_impact_scope_amended.1 c5rows noTrigEvents "canary" rfl

/-- C6: for a run with a nonempty window series whose windows satisfy
`start ≤ end` and whose rollback time (when present) does not lie
beyond the series end, recovery time is `None` exactly when no
rollback was triggered; when a rollback was triggered at time `t`,
the result is `end - t` of the first window with `start ≥ t` whose
p99 is below `baseline.p99 * 1.1` and whose error rate is below
`baseline.error_rate + 0.01`, and `series_end - t` (a lower bound)
when no such window exists — never `None`. -/
theorem C6_recovery_time (ms : List Window) (ev : RollbackEvents) (bw : ℚ)
    (hne : ms ≠ [])
    (hrows : ∀ m ∈ ms, m.window_start ≤ m.window_end)
    (hcons : ev.rollback_triggered = true → ∃ t, ev.rollback_time = some t)
    (htime : ∀ t, ev.rollback_time = some t → t ≤ (ms.getLast hne).window_end) :
    (calculate_recovery_time ms ev bw = none ↔ ev.rollback_triggered = false) ∧
    (∀ t, ev.rollback_triggered = true → ev.rollback_time = some t →
       calculate_recovery_time ms ev bw =
         some ((ms.find? (recoveredAt t ((calculate_baseline ms bw).p99_ms * (11/10))
                  ((calculate_baseline ms bw).error_rate + 1/100))).elim
                ((ms.getLast hne).window_end - t) (fun m => m.window_end - t))) := by
  have key : ∀ t, ev.rollback_triggered = true → ev.rollback_time = some t →
      calculate_recovery_time ms ev bw =
        some ((ms.find? (recoveredAt t ((calculate_baseline ms bw).p99_ms * (11/10))
                 ((calculate_baseline ms bw).error_rate + 1/100))).elim
               ((ms.getLast hne).window_end - t) (fun m => m.window_end - t)) := by
    intro t htrig hts
    rw [calculate_recovery_time, if_neg (by simp [htrig]), hts]
    cases hfind : ms.find? (recoveredAt t ((calculate_baseline ms bw).p99_ms * (11/10))
        ((calculate_baseline ms bw).error_rate + 1/100)) with
    | some m =>
        have hmem := List.mem_of_find?_eq_some hfind
        have hok := List.find?_some hfind
        have hstart : t ≤ m.window_start := by
          unfold recoveredAt at hok
          have h3 := (Bool.and_eq_true _ _).mp hok
          have h12 := (Bool.and_eq_true _ _).mp h3.1
          exact of_decide_eq_true h12.1
        have hnn : (0 : ℚ) ≤ m.window_end - t :=
          sub_nonneg.mpr (le_trans hstart (hrows m hmem))
        simp only [hfind]
        simp [max_eq_right hnn]
    | none =>
        have hlast : ms.getLast? = some (ms.getLast hne) := List.getLast?_eq_getLast ms hne
        have hnn : (0 : ℚ) ≤ (ms.getLast hne).window_end - t :=
          sub_nonneg.mpr (htime t hts)
        simp only [hfind, hlast]
        simp [max_eq_right hnn]
  refine ⟨⟨?_, ?_⟩, key⟩
  · intro hnone
    by_contra hb
    have htrig : ev.rollback_triggered = true := by
      cases h : ev.rollback_triggered
      · exact absurd h hb
      · rfl
    rcases hcons htrig with ⟨t, hts⟩
    rw [key t htrig hts] at hnone
    exact Option.noConfusion hnone
  · intro h
    rw [calculate_recovery_time, if_pos h]

/-- Closed witness for `C6_recovery_time`: on the worked example none
of the windows at or after the trigger recovers, so the result is the
lower bound `series_end - trigger_time = 160 - 150 = 10`. -/
theorem C6_recovery_time_witness :
    calculate_recovery_time exampleRows (extract_rollback_events exampleRows "bluegreen") 60 =
      some 10 := by
  have hev : extract_rollback_events exampleRows "bluegreen" =
      { rollback_triggered := true,
        rollback_time := some 150,
        trigger_reason := some "p99_threshold",
        consecutive_bad_windows := 2,
        deployment_start := 120,
        rollout_stages := [(120, 1)] } := by
    norm_num [extract_rollback_events, extractLoop, baseEvents, badRow, exampleRows,
      scenarioStages]
    decide
  rw [hev]
  have hne : exampleRows ≠ [] := by simp [exampleRows]
  have hlastval : (exampleRows.getLast hne).window_end = 160 := by
    simp [exampleRows, List.getLast]
  have h := (C6_recovery_time exampleRows
      { rollback_triggered := true,
        rollback_time := some 150,
        trigger_reason := some "p99_threshold",
        consecutive_bad_windows := 2,
        deployment_start := 120,
        rollout_stages := [(120, 1)] } 60 hne
      (by norm_num [exampleRows])
      (fun _ => ⟨150, rfl⟩)
      (by intro t ht
          obtain rfl : (150 : ℚ) = t := by injection ht
          rw [hlastval]
          norm_num)).2 150 rfl rfl
  rw [h]
  have hbase : calculate_baseline exampleRows 60 = ⟨430, 17/500⟩ := by
    norm_num [calculate_baseline, exampleRows, List.filter]
    simp
  rw [hbase]
  have hfind : exampleRows.find? (recoveredAt 150 ((430 : ℚ) * (11/10)) ((17/500 : ℚ) + 1/100)) =
      none := by
    norm_num [exampleRows, List.find?, recoveredAt]
  rw [hfind, hlastval]
  norm_num

/-- Invariant of one accumulator bucket at window key `k`: the latency
count equals the running total, a bucket with no recorded start has no
samples, and a recorded start time is the elapsed time of a sample of
this bucket — at least 60 and inside `[k*w, (k+1)*w)`. -/
def BucketInv (w : ℚ) (k : ℤ) (b : Bucket) : Prop :=
  b.latencies.length = b.total ∧
  (b.start_time = none → b.latencies = []) ∧
  (∀ s, b.start_time = some s → 60 ≤ s ∧ (k : ℚ) * w ≤ s ∧ s < ((k : ℚ) + 1) * w)

/-- Invariant of the whole accumulator state: distinct window keys and
every bucket well-formed. -/
def StateInv (w : ℚ) (st : AggState) : Prop :=
  (st.windows.map Prod.fst).Nodup ∧ ∀ e ∈ st.windows, BucketInv w e.1 e.2

theorem updateAssoc_map_fst (l : List (ℤ × Bucket)) (k : ℤ) (f : Bucket → Bucket) :
    (updateAssoc l k f).map Prod.fst =
      if k ∈ l.map Prod.fst then l.map Prod.fst else l.map Prod.fst ++ [k] := by
  induction l with
  | nil => simp [updateAssoc]
  | cons e rest ih =>
      by_cases he : e.1 = k
      · simp [updateAssoc, he]
      · simp only [updateAssoc, if_neg he, List.map_cons, ih]
        by_cases hk : k ∈ rest.map Prod.fst
        · simp [hk, Ne.symm he]
        · simp [hk, Ne.symm he]

theorem updateAssoc_nodup {l : List (ℤ × Bucket)} {k : ℤ} {f : Bucket → Bucket}
    (h : (l.map Prod.fst).Nodup) : ((updateAssoc l k f).map Prod.fst).Nodup := by
  rw [updateAssoc_map_fst]
  by_cases hk : k ∈ l.map Prod.fst
  · simpa [hk] using h
  · simp only [if_neg hk]
    simp [List.nodup_append, h, hk]

theorem updateAssoc_forall {Q : ℤ → Bucket → Prop} {l : List (ℤ × Bucket)} {k : ℤ}
    {f : Bucket → Bucket} (hl : ∀ e ∈ l, Q e.1 e.2)
    (hf : ∀ b, Q k b → Q k (f b)) (he : Q k emptyBucket) :
    ∀ e ∈ updateAssoc l k f, Q e.1 e.2 := by
  induction l with
  | nil =>
      intro e hee
      rcases List.mem_singleton.mp hee with rfl
      exact hf _ he
  | cons hd rest ih =>
      by_cases hhd : hd.1 = k
      · intro e hee
        rw [updateAssoc, if_pos hhd] at hee
        rcases List.mem_cons.mp hee with rfl | hmem
        · exact hf _ (hhd ▸ hl hd (List.mem_cons_self _ _))
        · exact hl e (List.mem_cons_of_mem _ hmem)
      · intro e hee
        rw [updateAssoc, if_neg hhd] at hee
        rcases List.mem_cons.mp hee with rfl | hmem
        · exact hl e (List.mem_cons_self _ _)
        · exact ih (fun x hx => hl x (List.mem_cons_of_mem _ hx)) e hmem

theorem truncQ_of_nonneg {q : ℚ} (h : 0 ≤ q) : truncQ q = ⌊q⌋ :=
  if_neg (not_lt.mpr h)

theorem key_bounds {w elapsed : ℚ} (hw : 0 < w) (he : 0 ≤ elapsed) :
    ((truncQ (elapsed / w) : ℤ) : ℚ) * w ≤ elapsed ∧
      elapsed < (((truncQ (elapsed / w) : ℤ) : ℚ) + 1) * w := by
  rw [truncQ_of_nonneg (div_nonneg he hw.le)]
  constructor
  · calc ((⌊elapsed / w⌋ : ℤ) : ℚ) * w ≤ (elapsed / w) * w :=
          mul_le_mul_of_nonneg_right (Int.floor_le _) hw.le
      _ = elapsed := div_mul_cancel₀ _ (ne_of_gt hw)
  · calc elapsed = (elapsed / w) * w := (div_mul_cancel₀ _ (ne_of_gt hw)).symm
      _ < (((⌊elapsed / w⌋ : ℤ) : ℚ) + 1) * w :=
          mul_lt_mul_of_pos_right (Int.lt_floor_add_one _) hw

theorem emptyBucket_inv (w : ℚ) (k : ℤ) : BucketInv w k emptyBucket :=
  ⟨rfl, fun _ => rfl, fun s h => by simp [emptyBucket] at h⟩

theorem addError_inv {w : ℚ} {k : ℤ} {b : Bucket} (hb : BucketInv w k b) :
    BucketInv w k (addError b) := by
  obtain ⟨h1, h2, h3⟩ := hb
  exact ⟨h1, h2, h3⟩

theorem addLatency_inv {w elapsed v : ℚ} {k : ℤ}
    (h60 : 60 ≤ elapsed) (hlb : (k : ℚ) * w ≤ elapsed) (hub : elapsed < ((k : ℚ) + 1) * w)
    {b : Bucket} (hb : BucketInv w k b) : BucketInv w k (addLatency elapsed v b) := by
  obtain ⟨h1, h2, h3⟩ := hb
  refine ⟨by simp [addLatency, h1], by simp [addLatency], ?_⟩
  intro s hs
  simp only [addLatency] at hs
  cases hst : b.start_time with
  | none =>
      rw [hst] at hs
      simp only [Option.getD_none, Option.some.injEq] at hs
      exact hs ▸ ⟨h60, hlb, hub⟩
  | some s0 =>
      rw [hst] at hs
      simp only [Option.getD_some, Option.some.injEq] at hs
      exact hs ▸ h3 s0 hst

theorem aggStep_inv {w : ℚ} (hw : 0 < w) {st : AggState} (p : K6Point)
    (h : StateInv w st) : StateInv w (aggStep w st p) := by
  obtain ⟨hn, hall⟩ := h
  rw [aggStep]
  by_cases hP : p.isPoint = false
  · rw [if_pos hP]; exact ⟨hn, hall⟩
  rw [if_neg hP]
  by_cases hD : p.hasData = false
  · rw [if_pos hD]; exact ⟨hn, hall⟩
  rw [if_neg hD]
  cases ht : p.time with
  | none => exact ⟨hn, hall⟩
  | some t =>
      simp only []
      set ts := st.test_start.getD t with hts
      set elapsed := t - ts with helg
      by_cases h60 : elapsed < 60
      · rw [if_pos h60]; exact ⟨hn, hall⟩
      rw [if_neg h60]
      have h60le : (60 : ℚ) ≤ elapsed := le_of_not_lt h60
      have h0le : (0 : ℚ) ≤ elapsed := le_trans (by norm_num) h60le
      obtain ⟨hlb, hub⟩ := key_bounds hw h0le
      by_cases hm1 : p.metric = "http_req_duration"
      · rw [if_pos hm1]
        by_cases hv : 0 < p.value
        · rw [if_pos hv]
          exact ⟨updateAssoc_nodup hn,
            updateAssoc_forall hall (fun b hb => addLatency_inv h60le hlb hub hb)
              (emptyBucket_inv w _)⟩
        · rw [if_neg hv]; exact ⟨hn, hall⟩
      · rw [if_neg hm1]
        by_cases hm2 : p.metric = "http_reqs"
        · rw [if_pos hm2]
          by_cases hs : p.status ≠ "" ∧ p.status ≠ "200"
          · rw [if_pos hs]
            exact ⟨updateAssoc_nodup hn,
              updateAssoc_forall hall (fun b hb => addError_inv hb) (emptyBucket_inv w _)⟩
          · rw [if_neg hs]
            by_cases he : p.expectedResponse = "false"
            · rw [if_pos he]
              exact ⟨updateAssoc_nodup hn,
                updateAssoc_forall hall (fun b hb => addError_inv hb) (emptyBucket_inv w _)⟩
            · rw [if_neg he]; exact ⟨hn, hall⟩
        · rw [if_neg hm2]; exact ⟨hn, hall⟩

theorem foldl_aggStep_inv {w : ℚ} (hw : 0 < w) (pts : List K6Point) {st : AggState}
    (h : StateInv w st) : StateInv w (pts.foldl (aggStep w) st) := by
  induction pts generalizing st with
  | nil => exact h
  | cons p rest ih => exact ih (aggStep_inv hw p h)

theorem parse_state_inv {w : ℚ} (hw : 0 < w) (pts : List K6Point) :
    StateInv w (pts.foldl (aggStep w) ⟨none, []⟩) :=
  foldl_aggStep_inv hw pts ⟨List.nodup_nil, by intro e he; simp at he⟩

theorem emitOne_some {w : ℚ} {assoc : List (ℤ × Bucket)} {k : ℤ} {r : Window}
    (h : (match lookupKey k assoc with
          | none => none
          | some b =>
            if b.latencies = [] then none
            else if (List.insertionSort (· ≤ ·) b.latencies).length = 0 then none
            else some (mkWindow w k b)) = some r) :
    ∃ b, lookupKey k assoc = some b ∧ b.latencies ≠ [] ∧ r = mkWindow w k b := by
  cases hlk : lookupKey k assoc with
  | none => rw [hlk] at h; cases h
  | some b =>
      rw [hlk] at h
      by_cases hl : b.latencies = []
      · simp [hl] at h
      · have hlen : ¬(List.insertionSort (· ≤ ·) b.latencies).length = 0 := by
          rw [List.length_insertionSort]
          exact fun hc => hl (List.length_eq_zero.mp hc)
        simp [hl, hlen] at h
        exact ⟨b, rfl, hl, h.symm⟩

theorem lookupKey_mem {k : ℤ} {assoc : List (ℤ × Bucket)} {b : Bucket}
    (h : lookupKey k assoc = some b) : (k, b) ∈ assoc := by
  rw [lookupKey] at h
  rcases Option.map_eq_some'.mp h with ⟨e, he, hsnd⟩
  rcases e with ⟨k0, b0⟩
  have hk : k0 = k := by simpa using List.find?_some he
  have hmem := List.mem_of_find?_eq_some he
  simp only at hsnd
  rw [hk, hsnd] at hmem
  exact hmem

theorem mem_emitWindows {w : ℚ} {assoc : List (ℤ × Bucket)} {r : Window}
    (hr : r ∈ emitWindows w assoc) :
    ∃ k b, lookupKey k assoc = some b ∧ b.latencies ≠ [] ∧ r = mkWindow w k b := by
  rw [emitWindows] at hr
  rcases List.mem_filterMap.mp hr with ⟨k, _, hfk⟩
  rcases emitOne_some hfk with ⟨b, hlk, hl, hrw⟩
  exact ⟨k, b, hlk, hl, hrw⟩

theorem mkWindow_we (w : ℚ) (k : ℤ) (b : Bucket) :
    (mkWindow w k b).window_end = (mkWindow w k b).window_start + w := rfl

theorem mkWindow_total {w : ℚ} {k : ℤ} {b : Bucket} (hb : BucketInv w k b)
    (hl : b.latencies ≠ []) : 1 ≤ (mkWindow w k b).total_requests := by
  have hlen : 0 < b.latencies.length := List.length_pos.mpr hl
  have := hb.1
  simp only [mkWindow]
  omega

theorem mkWindow_ws_bounds {w : ℚ} {k : ℤ} {b : Bucket} (hb : BucketInv w k b)
    (hl : b.latencies ≠ []) :
    60 ≤ (mkWindow w k b).window_start ∧
      (k : ℚ) * w ≤ (mkWindow w k b).window_start ∧
      (mkWindow w k b).window_start < ((k : ℚ) + 1) * w := by
  cases hst : b.start_time with
  | none => exact absurd (hb.2.1 hst) hl
  | some s =>
      have hs := hb.2.2 s hst
      simp only [mkWindow, hst, Option.getD_some]
      exact hs

theorem pctIdx_le_sub_one {n : ℕ} (hn : 1 ≤ n) (p : ℚ) : pctIdx n p ≤ n - 1 := by
  unfold pctIdx
  have h1 : max 0 (min ((n : ℤ) - 1) (truncQ ((n : ℚ) * p))) ≤ (n : ℤ) - 1 :=
    max_le (by omega) (min_le_left _ _)
  have := Int.toNat_le_toNat h1
  omega

theorem pctIdx_mono {n : ℕ} {p q : ℚ} (hp : 0 ≤ p) (hpq : p ≤ q) :
    pctIdx n p ≤ pctIdx n q := by
  unfold pctIdx
  have hnp : (0 : ℚ) ≤ (n : ℚ) * p := mul_nonneg (by positivity) hp
  have hnq : (0 : ℚ) ≤ (n : ℚ) * q := le_trans hnp (by gcongr)
  rw [truncQ_of_nonneg hnp, truncQ_of_nonneg hnq]
  exact Int.toNat_le_toNat (max_le_max le_rfl (min_le_min le_rfl
    (Int.floor_le_floor (by gcongr))))

theorem sorted_getD_mono {l : List ℚ} (hs : l.Sorted (· ≤ ·)) {i j : ℕ} (hij : i ≤ j)
    (hj : j < l.length) : l.getD i 0 ≤ l.getD j 0 := by
  have hi : i < l.length := lt_of_le_of_lt hij hj
  rw [List.getD_eq_getElem l 0 hi, List.getD_eq_getElem l 0 hj]
  rcases eq_or_lt_of_le hij with rfl | hlt
  · exact le_refl _
  · exact hs.rel_get_of_lt (a := ⟨i, hi⟩) (b := ⟨j, hj⟩) hlt

theorem mkWindow_p_mono {w : ℚ} {k : ℤ} {b : Bucket} (hl : b.latencies ≠ []) :
    (mkWindow w k b).p50_ms ≤ (mkWindow w k b).p95_ms ∧
      (mkWindow w k b).p95_ms ≤ (mkWindow w k b).p99_ms := by
  have hsorted : (List.insertionSort (· ≤ ·) b.latencies).Sorted (· ≤ ·) :=
    List.sorted_insertionSort _ _
  have hn : 1 ≤ (List.insertionSort (· ≤ ·) b.latencies).length := by
    rw [List.length_insertionSort]
    exact List.length_pos.mpr hl
  have h99 : pctIdx (List.insertionSort (· ≤ ·) b.latencies).length (99/100) <
      (List.insertionSort (· ≤ ·) b.latencies).length := by
    have := pctIdx_le_sub_one hn (99/100 : ℚ)
    omega
  have h95 : pctIdx (List.insertionSort (· ≤ ·) b.latencies).length (95/100) <
      (List.insertionSort (· ≤ ·) b.latencies).length := by
    have := pctIdx_le_sub_one hn (95/100 : ℚ)
    omega
  constructor
  · exact sorted_getD_mono hsorted (pctIdx_mono (by norm_num) (by norm_num)) h95
  · exact sorted_getD_mono hsorted (pctIdx_mono (by norm_num) (by norm_num)) h99

theorem emitWindows_pairwise {w : ℚ} (hw : 0 < w) {assoc : List (ℤ × Bucket)}
    (hnodup : (assoc.map Prod.fst).Nodup)
    (hall : ∀ e ∈ assoc, BucketInv w e.1 e.2) :
    (emitWindows w assoc).Pairwise (fun a b => a.window_start < b.window_start) := by
  rw [emitWindows]
  refine List.pairwise_filterMap.mpr ?_
  have hsorted : (List.insertionSort (· ≤ ·) (assoc.map Prod.fst)).Sorted (· ≤ ·) :=
    List.sorted_insertionSort _ _
  have hnd : (List.insertionSort (· ≤ ·) (assoc.map Prod.fst)).Nodup :=
    (List.perm_insertionSort _ _).nodup_iff.mpr hnodup
  have hlt : (List.insertionSort (· ≤ ·) (assoc.map Prod.fst)).Pairwise (· < ·) :=
    (List.Pairwise.and hsorted hnd).imp (fun h => lt_of_le_of_ne h.1 h.2)
  refine hlt.imp ?_
  intro k k2 hkk r hr r2 hr2
  rcases emitOne_some (Option.mem_def.mp hr) with ⟨b, hlk, hl, rfl⟩
  rcases emitOne_some (Option.mem_def.mp hr2) with ⟨b2, hlk2, hl2, rfl⟩
  have hb := hall _ (lookupKey_mem hlk)
  have hb2 := hall _ (lookupKey_mem hlk2)
  have h1 := (mkWindow_ws_bounds hb hl).2.2
  have h2 := (mkWindow_ws_bounds hb2 hl2).2.1
  have hcast : ((k : ℚ) + 1) ≤ (k2 : ℚ) := by
    have : (k + 1 : ℤ) ≤ k2 := hkk
    exact_mod_cast this
  calc (mkWindow w k b).window_start < ((k : ℚ) + 1) * w := h1
    _ ≤ (k2 : ℚ) * w := mul_le_mul_of_nonneg_right hcast hw.le
    _ ≤ (mkWindow w k2 b2).window_start := h2

/-- Every row of `parse_k6_json` arises from a well-formed nonempty
bucket at some window key. -/
theorem parse_row_shape {w : ℚ} (hw : 0 < w) (pts : List K6Point) :
    ∀ r ∈ parse_k6_json pts w,
      ∃ k b, BucketInv w k b ∧ b.latencies ≠ [] ∧ r = mkWindow w k b := by
  intro r hr
  rcases mem_emitWindows hr with ⟨k, b, hlk, hl, hrw⟩
  exact ⟨k, b, (parse_state_inv hw pts).2 _ (lookupKey_mem hlk), hl, hrw⟩

/-- The window series of `parse_k6_json` has strictly increasing
starts. -/
theorem parse_pairwise {w : ℚ} (hw : 0 < w) (pts : List K6Point) :
    (parse_k6_json pts w).Pairwise (fun a b => a.window_start < b.window_start) := by
  rw [parse_k6_json]
  exact emitWindows_pairwise hw (parse_state_inv hw pts).1 (parse_state_inv hw pts).2

/-- C3, counterexample: with width 10, samples at elapsed 65 and 70
land in adjacent buckets, and the emitted windows are [65, 75) and
[70, 80) — they overlap, because a window's start is the elapsed time
of its first latency sample, not the bucket boundary. -/
theorem C3_window_invariants_counterexample :
    parse_k6_json [mkDur 0 1, mkDur 65 1, mkDur 70 1] 10 =
      [⟨65, 75, 1, 1, 1, 0, 1, 0⟩, ⟨70, 80, 1, 1, 1, 0, 1, 0⟩] ∧
    ¬((75 : ℚ) ≤ 70) := by
  constructor
  · have hst : (([mkDur 0 1, mkDur 65 1, mkDur 70 1]).foldl (aggStep 10) ⟨none, []⟩) =
        ⟨some 0, [(6, ⟨[1], 0, 1, some 65⟩), (7, ⟨[1], 0, 1, some 70⟩)]⟩ := by
      norm_num [aggStep, updateAssoc, addLatency, truncQ, mkDur, emptyBucket, List.foldl]
    rw [parse_k6_json, hst]
    norm_num [emitWindows, mkWindow, lookupKey, pctIdx, truncQ,
      List.insertionSort, List.orderedInsert, List.filterMap, List.find?]
  · norm_num

/-- C3 (amended): for every input and window width w > 0, every
emitted window has `end - start = w` and at least one latency sample,
and the window starts are strictly increasing; the windows need NOT be
pairwise non-overlapping, since a window's start is the elapsed time
of its first latency sample inside the bucket, so a window may extend
into the span of the next one. -/
theorem C3_window_invariants_amended :
    ∀ (pts : List K6Point) (w : ℚ), 0 < w →
      (∀ r ∈ parse_k6_json pts w,
         r.window_end - r.window_start = w ∧ 1 ≤ r.total_requests) ∧
      (parse_k6_json pts w).Pairwise (fun a b => a.window_start < b.window_start) := by
  intro pts w hw
  constructor
  · intro r hr
    rcases parse_row_shape hw pts r hr with ⟨k, b, hb, hl, rfl⟩
    exact ⟨by rw [mkWindow_we]; ring, mkWindow_total hb hl⟩
  · exact parse_pairwise hw pts

/-- Closed witness for `C3_window_invariants_amended`. -/
theorem C3_window_invariants_amended_witness :
    (parse_k6_json [mkDur 0 1, mkDur 65 1, mkDur 70 1] 10).Pairwise
      (fun a b => a.window_start < b.window_start) :=
  (C3_window_invariants_amended [mkDur 0 1, mkDur 65 1, mkDur 70 1] 10 (by norm_num)).2

/-- C7: in every emitted window the nearest-rank percentiles taken at
increasing ranks over the ascending-sorted latencies satisfy
`p50 ≤ p95 ≤ p99`. -/
theorem C7_percentile_monotone :
    ∀ (pts : List K6Point) (w : ℚ), 0 < w →
      ∀ r ∈ parse_k6_json pts w, r.p50_ms ≤ r.p95_ms ∧ r.p95_ms ≤ r.p99_ms := by
  intro pts w hw r hr
  rcases mem_emitWindows hr with ⟨k, b, _, hl, rfl⟩
  exact mkWindow_p_mono hl

/-- Closed witness for `C7_percentile_monotone`. -/
theorem C7_percentile_monotone_witness :
    ((⟨65, 75, 5, 5, 5, 0, 2, 0⟩ : Window).p50_ms ≤
        (⟨65, 75, 5, 5, 5, 0, 2, 0⟩ : Window).p95_ms) ∧
      ((⟨65, 75, 5, 5, 5, 0, 2, 0⟩ : Window).p95_ms ≤
        (⟨65, 75, 5, 5, 5, 0, 2, 0⟩ : Window).p99_ms) := by
  have heval : parse_k6_json [mkDur 0 1, mkDur 65 5, mkDur 66 1] 10 =
      [⟨65, 75, 5, 5, 5, 0, 2, 0⟩] := by
    have hst : (([mkDur 0 1, mkDur 65 5, mkDur 66 1]).foldl (aggStep 10) ⟨none, []⟩) =
        ⟨some 0, [(6, ⟨[5, 1], 0, 2, some 65⟩)]⟩ := by
      norm_num [aggStep, updateAssoc, addLatency, truncQ, mkDur, emptyBucket, List.foldl]
    rw [parse_k6_json, hst]
    norm_num [emitWindows, mkWindow, lookupKey, pctIdx, truncQ,
      List.insertionSort, List.orderedInsert, List.filterMap, List.find?]
    simp
  exact C7_percentile_monotone [mkDur 0 1, mkDur 65 5, mkDur 66 1] 10 (by norm_num)
    ⟨65, 75, 5, 5, 5, 0, 2, 0⟩ (by rw [heval]; exact List.mem_singleton.mpr rfl)

/-- C9: every data point with elapsed time below 60 is discarded
before bucketing, so every emitted window starts at or after 60; the
baseline's primary rule (windows with `start < 60`, the default
`baseline_window`) therefore selects no window of an
aggregator-produced series and the computation always falls through to
the first-6-windows fallback (and to the fixed constants only when the
series itself is empty). -/
theorem C9_warmup_baseline :
    ∀ (pts : List K6Point) (w : ℚ), 0 < w →
      (∀ r ∈ parse_k6_json pts w, 60 ≤ r.window_start) ∧
      (parse_k6_json pts w).filter (fun m => decide (m.window_start < 60)) = [] ∧
      calculate_baseline (parse_k6_json pts w) 60 =
        (if parse_k6_json pts w = [] then ⟨100, 1/100⟩
         else ⟨(((parse_k6_json pts w).take 6).map Window.p99_ms).sum /
                 ((parse_k6_json pts w).take 6).length,
               (((parse_k6_json pts w).take 6).map Window.error_rate).sum /
                 ((parse_k6_json pts w).take 6).length⟩) := by
  intro pts w hw
  have h60 : ∀ r ∈ parse_k6_json pts w, 60 ≤ r.window_start := by
    intro r hr
    rcases parse_row_shape hw pts r hr with ⟨k, b, hb, hl, rfl⟩
    exact (mkWindow_ws_bounds hb hl).1
  have hfil : (parse_k6_json pts w).filter (fun m => decide (m.window_start < 60)) = [] :=
    List.filter_eq_nil_iff.mpr (fun r hr => by simpa using not_lt.mpr (h60 r hr))
  refine ⟨h60, hfil, ?_⟩
  by_cases hms : parse_k6_json pts w = []
  · simp [calculate_baseline, hms]
  · have htake : (parse_k6_json pts w).take 6 ≠ [] := by
      rw [Ne, List.take_eq_nil_iff]
      push_neg
      exact ⟨by norm_num, hms⟩
    simp [calculate_baseline, hfil, hms, htake]

/-- Closed witness for `C9_warmup_baseline`. -/
theorem C9_warmup_baseline_witness :
    (parse_k6_json [mkDur 0 1, mkDur 65 1, mkDur 70 1] 10).filter
      (fun m => decide (m.window_start < 60)) = [] :=
  (C9_warmup_baseline [mkDur 0 1, mkDur 65 1, mkDur 70 1] 10 (by norm_num)).2.1

/-- Input demonstrating error-event attribution: an error event at
elapsed 165 lands in bucket 16, which has no latency sample and is
dropped; bucket 17 receives one positive-duration sample at elapsed
175 and one zero-valued duration at 178 that is not counted. -/
def c10pts : List K6Point :=
  [mkDur 0 1, mkReq 165 "500" "true", mkDur 175 1, mkDur 178 0]

/-- C10: every emitted window carries at least one latency sample (so
a bucket holding only error events is dropped entirely), and on the
demonstration input the error event in the sample-less bucket is
silently excluded: the emitted series is one window with
`error_count = 0` and `total_requests = 1` (the zero-valued duration
is not counted), although the input contains an error event. -/
theorem C10_error_attribution :
    (∀ (pts : List K6Point) (w : ℚ), 0 < w →
       ∀ r ∈ parse_k6_json pts w, 1 ≤ r.total_requests) ∧
    parse_k6_json c10pts 10 = [⟨175, 185, 1, 1, 1, 0, 1, 0⟩] ∧
    ((parse_k6_json c10pts 10).map Window.error_count).sum = 0 ∧
    ((parse_k6_json c10pts 10).map Window.total_requests).sum = 1 := by
  have heval : parse_k6_json c10pts 10 = [⟨175, 185, 1, 1, 1, 0, 1, 0⟩] := by
    have e1 : ¬(("http_reqs" : String) = "http_req_duration") := by decide
    have e2 : ¬(("500" : String) = "") := by decide
    have e3 : ¬(("500" : String) = "200") := by decide
    have e4 : ¬(("true" : String) = "false") := by decide
    have hst : (c10pts.foldl (aggStep 10) ⟨none, []⟩) =
        ⟨some 0,
         [(16, ⟨[], 1, 0, none⟩), (17, ⟨[1], 0, 1, some 175⟩)]⟩ := by
      norm_num [c10pts, aggStep, updateAssoc, addLatency, addError, truncQ, mkDur, mkReq,
        emptyBucket, List.foldl, e1, e2, e3, e4]
    rw [parse_k6_json, hst]
    norm_num [emitWindows, mkWindow, lookupKey, pctIdx, truncQ,
      List.insertionSort, List.orderedInsert, List.filterMap, List.find?]
  refine ⟨?_, heval, by rw [heval]; rfl, by rw [heval]; rfl⟩
  intro pts w hw r hr
  rcases parse_row_shape hw pts r hr with ⟨k, b, hb, hl, rfl⟩
  exact mkWindow_total hb hl

/-- Closed witness for `C10_error_attribution`. -/
theorem C10_error_attribution_witness :
    1 ≤ (⟨175, 185, 1, 1, 1, 0, 1, 0⟩ : Window).total_requests := by
  have heval := C10_error_attribution.2.1
  exact C10_error_attribution.1 c10pts 10 (by norm_num) ⟨175, 185, 1, 1, 1, 0, 1, 0⟩
    (by rw [heval]; exact List.mem_singleton.mpr rfl)

/-- A data line whose timestamp is missing or unparsable. -/
def noTimePoint : K6Point := ⟨true, "http_req_duration", true, none, 50, "", "true"⟩

theorem aggStep_time_none {w : ℚ} {st : AggState} {p : K6Point} (h : p.time = none) :
    aggStep w st p = st := by
  rw [aggStep]
  by_cases hP : p.isPoint = false
  · rw [if_pos hP]
  · rw [if_neg hP]
    by_cases hD : p.hasData = false
    · rw [if_pos hD]
    · rw [if_neg hD]
      simp [h]

/-- C8, counterexample: the Aggregator's entire output is the window
series; inserting a record with a missing/unparsable timestamp leaves
that output unchanged, so no skipped-record count is reported
alongside it — the claim's "counts such skipped records and reports
the skipped-record count" has no counterpart in the code. -/
theorem C8_skipped_records_counterexample :
    parse_k6_json [mkDur 0 1, noTimePoint, mkDur 65 1] 10 =
      parse_k6_json [mkDur 0 1, mkDur 65 1] 10 ∧
    parse_k6_json [noTimePoint] 10 = [] := by
  constructor
  · have hfold : ([mkDur 0 1, noTimePoint, mkDur 65 1] : List K6Point).foldl (aggStep 10)
        ⟨none, []⟩ = ([mkDur 0 1, mkDur 65 1] : List K6Point).foldl (aggStep 10) ⟨none, []⟩ := by
      simp only [List.foldl_cons, List.foldl_nil,
        aggStep_time_none (show noTimePoint.time = none from rfl)]
    rw [parse_k6_json, parse_k6_json, hfold]
  · rfl

/-- C8 (amended): a record with a missing or unparsable timestamp is
skipped without aborting the Aggregator — the output on any input
containing such a record equals the output with the record removed —
but the Aggregator does not count skipped records and reports no
skipped-record count alongside the window series. -/
theorem C8_skipped_records_amended :
    ∀ (pts1 pts2 : List K6Point) (p : K6Point) (w : ℚ), p.time = none →
      parse_k6_json (pts1 ++ p :: pts2) w = parse_k6_json (pts1 ++ pts2) w := by
  intro pts1 pts2 p w hp
  rw [parse_k6_json, parse_k6_json, List.foldl_append, List.foldl_append, List.foldl_cons,
    aggStep_time_none hp]

/-- Closed witness for `C8_skipped_records_amended`. -/
theorem C8_skipped_records_amended_witness :
    parse_k6_json ([mkDur 0 1] ++ noTimePoint :: [mkDur 65 1]) 10 =
      parse_k6_json ([mkDur 0 1] ++ [mkDur 65 1]) 10 :=
  C8_skipped_records_amended [mkDur 0 1] [mkDur 65 1] noTimePoint 10 rfl
